import Mathlib

/-!
Shallow embedding of the `BinanceWebSocket` feed client from
`src/services/binance.ts` and proofs about its subscription registry,
snapshot cache, frame classification, reconnect/backoff machinery and
shutdown behaviour.

JavaScript `Map`s are modelled as association lists with the same
get/set/delete semantics; `Set`s of callback functions are modelled as
insertion-ordered lists of `Callback` values deduplicated by identity
(`id`); `parseFloat(x) || 0` is modelled as `Option ℚ` with `none` for
NaN/missing followed by `getD 0`; timers are modelled by counting the
pending handles the code holds (or fails to hold).  A callback that
throws is modelled by its `throws` flag; a `try/catch` in the code is
reflected by where the model swallows that flag and where it propagates
it (`threw` field of `SubscribeResult`).
-/

namespace BinanceWS

/-- `PriceData` from `src/services/types.ts` as used by `binance.ts`:
one normalized quote for one symbol. -/
structure PriceData where
  symbol : String
  price : ℚ
  priceChange : ℚ
  priceChangePercent : ℚ
  volume : ℚ
  high24h : ℚ
  low24h : ℚ
  lastUpdate : ℕ
  deriving DecidableEq, Repr

/-- `CachedData` (binance.ts line 536): a snapshot plus its receipt time. -/
structure CachedData where
  data : PriceData
  timestamp : ℕ
  deriving DecidableEq, Repr

/-- A subscriber callback.  JavaScript compares functions by object
identity, modelled by `id`; `throws` says whether invoking it raises. -/
structure Callback where
  id : ℕ
  throws : Bool
  deriving DecidableEq, Repr

/-- Outbound protocol frames sent over the socket. -/
inductive OutMsg where
  | subMsg (params : List String) (msgId : ℕ)
  | unsubMsg (params : List String) (msgId : ℕ)
  | pingMsg (t : ℕ)
  deriving DecidableEq, Repr

/-- The fields `processTicker` reads from a parsed ticker object
(`ticker.s`, `.c`, `.p`, `.P`, `.v`, `.h`, `.l`).  `none` models a
missing field or one whose `parseFloat` is NaN. -/
structure Ticker where
  s : Option String
  c : Option ℚ
  p : Option ℚ
  P : Option ℚ
  v : Option ℚ
  h : Option ℚ
  l : Option ℚ
  deriving DecidableEq, Repr

/-- The shapes a successfully-parsed inbound JSON frame can take that are
relevant to the `onmessage` handler: a JSON object with optional `pong`
and `e` fields plus ticker fields, a JSON array of ticker objects, or
text that fails `JSON.parse`. -/
inductive WsFrame where
  | jobj (pong : Option ℕ) (e : Option String) (tick : Ticker)
  | jarr (items : List Ticker)
  | badJson
  deriving DecidableEq, Repr

/-- Association-list model of a JavaScript `Map` keyed by strings. -/
abbrev SMap (β : Type) := List (String × β)

/-- `Map.get`. -/
def aget {β : Type} : SMap β → String → Option β
  | [], _ => none
  | (k, v) :: rest, key => if k = key then some v else aget rest key

/-- `Map.set`: replace in place if the key exists, else append. -/
def aset {β : Type} : SMap β → String → β → SMap β
  | [], key, val => [(key, val)]
  | (k, v) :: rest, key, val =>
      if k = key then (key, val) :: rest else (k, v) :: aset rest key val

/-- `Map.delete`. -/
def adel {β : Type} (m : SMap β) (key : String) : SMap β :=
  m.filter (fun e => e.1 ≠ key)

/-- Membership of a callback in a `Set`, by function identity. -/
def cbMem (l : List Callback) (cb : Callback) : Bool :=
  l.any (fun c => c.id = cb.id)

/-- `Set.add`: a no-op when an identical callback is already present,
otherwise appended at the end (insertion order). -/
def cbAdd (l : List Callback) (cb : Callback) : List Callback :=
  if cbMem l cb then l else l ++ [cb]

/-- `Set.delete`, by function identity. -/
def cbDel (l : List Callback) (cb : Callback) : List Callback :=
  l.filter (fun c => c.id ≠ cb.id)

/-- The stream name `symbol.toLowerCase() + "@ticker"` used in
subscribe/unsubscribe frames. -/
def streamName (symbol : String) : String :=
  symbol.toLower ++ "@ticker"

/-- The mutable fields of the `BinanceWebSocket` class that the verified
claims touch.  Timer handles the code does not retain are modelled by
ghost counters (`pendingReconnectTimers`, `connectAttemptsMade`) so that
stray timers and stray connection attempts are observable. -/
structure WSState where
  subscriptionCounts : SMap ℕ
  callbacks : SMap (List Callback)
  lastData : SMap CachedData
  pendingSubscriptions : List String
  wsOpen : Bool
  reconnectAttempts : ℕ
  isReconnecting : Bool
  isOnline : Bool
  lastMessageTime : ℕ
  lastPongTime : ℕ
  heartbeatActive : Bool
  connectionCheckActive : Bool
  pendingReconnectTimers : ℕ
  connectAttemptsMade : ℕ
  deriving DecidableEq, Repr

/-- `maxReconnectAttempts` (line 22). -/
def maxReconnectAttempts : ℕ := 15

/-- The state right after the constructor's field initializers and
`initializeDefaultData` have run (zero-valued placeholders for the three
default symbols) and `startConnectionCheck` has installed the staleness
interval; no socket yet. -/
def initState : WSState :=
  let placeholder : String → String × CachedData := fun sym =>
    (sym, { data := { symbol := sym, price := 0, priceChange := 0,
                      priceChangePercent := 0, volume := 0, high24h := 0,
                      low24h := 0, lastUpdate := 0 }, timestamp := 0 })
  { subscriptionCounts := []
    callbacks := []
    lastData := [placeholder "BTCUSDT", placeholder "ETHUSDT", placeholder "BNBUSDT"]
    pendingSubscriptions := []
    wsOpen := false
    reconnectAttempts := 0
    isReconnecting := false
    isOnline := true
    lastMessageTime := 0
    lastPongTime := 0
    heartbeatActive := false
    connectionCheckActive := true
    pendingReconnectTimers := 0
    connectAttemptsMade := 0 }

/-- Result of a `subscribe` call: the mutated object state, the protocol
frames sent, the callback invocations performed synchronously, and
whether an exception escaped to the caller. -/
structure SubscribeResult where
  state : WSState
  sent : List OutMsg
  invoked : List (Callback × PriceData)
  threw : Bool
  deriving DecidableEq, Repr

/-- `subscribe(symbol, callback)` (lines 440-467).  The reference count
is incremented, the callback added to the per-symbol set, a SUBSCRIBE
frame is sent when this is the first subscriber and the socket is open,
and on a cache hit the callback is invoked bare — not inside `try` — so
its `throws` flag becomes the caller-visible `threw`. -/
def subscribe (st : WSState) (symbol : String) (cb : Callback) (now : ℕ) :
    SubscribeResult :=
  let count := (aget st.subscriptionCounts symbol).getD 0
  let counts := aset st.subscriptionCounts symbol (count + 1)
  let cbs := (aget st.callbacks symbol).getD []
  let cbMap := aset st.callbacks symbol (cbAdd cbs cb)
  let pending :=
    if count = 0 then
      if st.pendingSubscriptions.contains symbol then st.pendingSubscriptions
      else st.pendingSubscriptions ++ [symbol]
    else st.pendingSubscriptions
  let sent :=
    if count = 0 ∧ st.wsOpen then [OutMsg.subMsg [streamName symbol] now] else []
  let st1 := { st with subscriptionCounts := counts, callbacks := cbMap,
                       pendingSubscriptions := pending }
  match aget st.lastData symbol with
  | some cached =>
      { state := st1, sent := sent, invoked := [(cb, cached.data)], threw := cb.throws }
  | none => { state := st1, sent := sent, invoked := [], threw := false }

/-- Result of an `unsubscribe` call: `unsubscribe` sends frames but never
invokes callbacks and never lets an exception escape (its `ws.send` is
wrapped in `try/catch`). -/
structure UnsubResult where
  state : WSState
  sent : List OutMsg
  deriving DecidableEq, Repr

/-- `unsubscribe(symbol, callback)` (lines 469-500).  The count block
runs on the count alone — whether `callback` is registered is never
consulted — and the callback-set block runs unconditionally after it. -/
def unsubscribe (st : WSState) (symbol : String) (cb : Callback) (now : ℕ) :
    UnsubResult :=
  let count := (aget st.subscriptionCounts symbol).getD 0
  let countsAfter :=
    if 0 < count then
      if count = 1 then adel (aset st.subscriptionCounts symbol (count - 1)) symbol
      else aset st.subscriptionCounts symbol (count - 1)
    else st.subscriptionCounts
  let pendingAfter :=
    if 0 < count ∧ count = 1 then st.pendingSubscriptions.filter (fun s => s ≠ symbol)
    else st.pendingSubscriptions
  let sent :=
    if 0 < count ∧ count = 1 ∧ st.wsOpen then
      [OutMsg.unsubMsg [streamName symbol] now]
    else []
  let cbsAfter :=
    match aget st.callbacks symbol with
    | some cbs =>
        let cbs1 := cbDel cbs cb
        if cbs1.length = 0 then adel st.callbacks symbol
        else aset st.callbacks symbol cbs1
    | none => st.callbacks
  { state := { st with subscriptionCounts := countsAfter,
                       pendingSubscriptions := pendingAfter,
                       callbacks := cbsAfter },
    sent := sent }

/-- `processTicker(ticker)` (lines 384-415).  Returns the new state and
the list of callback invocations performed; each invocation is wrapped
in `try/catch`, so every registered callback is invoked no matter what
earlier ones threw, and nothing propagates. -/
def processTicker (st : WSState) (t : Ticker) (now : ℕ) :
    WSState × List (Callback × PriceData) :=
  match t.s with
  | none => (st, [])
  | some symbol =>
      if symbol = "" then (st, [])
      else
        let pd : PriceData :=
          { symbol := symbol, price := (t.c).getD 0, priceChange := (t.p).getD 0,
            priceChangePercent := (t.P).getD 0, volume := (t.v).getD 0,
            high24h := (t.h).getD 0, low24h := (t.l).getD 0, lastUpdate := now }
        if 0 < pd.price then
          let st1 := { st with lastData := aset st.lastData symbol ⟨pd, now⟩ }
          let cbs := (aget st.callbacks symbol).getD []
          (st1, cbs.map (fun cb => (cb, pd)))
        else (st, [])

/-- `getLastData(symbol)` (lines 502-517): returns the cached snapshot,
or a fresh zero-valued placeholder when the symbol was never observed. -/
def getLastData (st : WSState) (symbol : String) (now : ℕ) : PriceData :=
  match aget st.lastData symbol with
  | some cached => cached.data
  | none =>
      { symbol := symbol, price := 0, priceChange := 0, priceChangePercent := 0,
        volume := 0, high24h := 0, low24h := 0, lastUpdate := now }

/-- The backoff delay in milliseconds the code computes for reconnect
attempt `n`: `min(baseReconnectDelay * backoffMultiplier^n, maxBackoffDelay)`
with base 2000, multiplier 1.5 and cap 45000 (lines 332-335).  For
`n ≤ 15` the JavaScript double computation is exact, so ℚ is faithful. -/
def reconnectDelayQ (n : ℕ) : ℚ :=
  min (2000 * (3 / 2 : ℚ) ^ n) 45000

/-- `handleReconnect()` (lines 326-355).  Returns the new state plus the
delay of the timer it scheduled, if any.  Note: the guard reads
`isReconnecting` but the function never sets it, and the `setTimeout`
handle is not stored anywhere — modelled by `pendingReconnectTimers`. -/
def handleReconnect (st : WSState) : WSState × Option ℚ :=
  if st.isReconnecting ∨ st.isOnline = false then (st, none)
  else if st.reconnectAttempts < maxReconnectAttempts then
    let n := st.reconnectAttempts + 1
    ({ st with reconnectAttempts := n,
               pendingReconnectTimers := st.pendingReconnectTimers + 1 },
     some (reconnectDelayQ n))
  else
    ({ st with pendingReconnectTimers := st.pendingReconnectTimers + 1 },
     some 60000)

/-- `cleanup(reconnect)` (lines 357-382): nulls the socket, clears the
heartbeat interval, then optionally calls `handleReconnect`. -/
def cleanup (st : WSState) (reconnect : Bool) : WSState :=
  let st1 := { st with wsOpen := false, heartbeatActive := false }
  if reconnect then (handleReconnect st1).1 else st1

/-- `connect()` (lines 201-249): no-op when already reconnecting or
offline; otherwise sets the guard flag and initiates a physical
connection attempt (counted by `connectAttemptsMade`). -/
def connect (st : WSState) : WSState :=
  if st.isReconnecting ∨ st.isOnline = false then st
  else
    let st1 := cleanup { st with isReconnecting := true } false
    { st1 with connectAttemptsMade := st1.connectAttemptsMade + 1 }

/-- A pending reconnect-delay timer firing (the `setTimeout` callback at
lines 339-342): clears the guard flag, then calls `connect()`. -/
def fireReconnectTimer (st : WSState) : WSState :=
  connect { st with isReconnecting := false,
                    pendingReconnectTimers := st.pendingReconnectTimers - 1 }

/-- The `onerror` handler (lines 283-286): logs, then `handleReconnect`. -/
def onError (st : WSState) : WSState :=
  (handleReconnect st).1

/-- The `onclose` handler (lines 288-290): `handleReconnect`. -/
def onCloseEvt (st : WSState) : WSState :=
  (handleReconnect st).1

/-- The `onopen` handler (lines 254-263): resets the attempt counter and
the guard flag, stamps the liveness clocks, starts the heartbeat. -/
def onOpen (st : WSState) (now : ℕ) : WSState :=
  { st with reconnectAttempts := 0, isReconnecting := false,
            lastMessageTime := now, lastPongTime := now,
            heartbeatActive := true, wsOpen := true }

/-- `close()` (lines 519-533): `cleanup(false)`, clear the staleness
interval, clear registry and cache state.  Nothing here touches
`pendingReconnectTimers` — the code never stored those handles. -/
def close (st : WSState) : WSState :=
  let st1 := cleanup st false
  { st1 with connectionCheckActive := false, callbacks := [],
             subscriptionCounts := [], lastData := [],
             pendingSubscriptions := [] }

/-- JavaScript truthiness of a numeric field: present and nonzero. -/
def truthyNat : Option ℕ → Bool
  | some t => t ≠ 0
  | none => false

/-- The `onmessage` handler (lines 265-281): stamp `lastMessageTime`,
parse; a truthy `pong` field only refreshes `lastPongTime`; otherwise
only a top-level `e === "24hrTicker"` reaches `processTicker`.  Arrays
have neither field, so they fall through with no effect. -/
def onMessage (st : WSState) (frame : WsFrame) (now : ℕ) :
    WSState × List (Callback × PriceData) :=
  let st0 := { st with lastMessageTime := now }
  match frame with
  | WsFrame.badJson => (st0, [])
  | WsFrame.jarr _ => (st0, [])
  | WsFrame.jobj pong e tick =>
      if truthyNat pong then ({ st0 with lastPongTime := now }, [])
      else if e = some "24hrTicker" then processTicker st0 tick now
      else (st0, [])

/-- Folding `subscribe` over a list of callbacks for one symbol,
accumulating the frames sent. -/
def subscribeMany (st : WSState) (symbol : String) (cbs : List Callback)
    (now : ℕ) : WSState × List OutMsg :=
  match cbs with
  | [] => (st, [])
  | cb :: rest =>
      let r := subscribe st symbol cb now
      let next := subscribeMany r.state symbol rest now
      (next.1, r.sent ++ next.2)

/-- Folding `unsubscribe` over a list of callbacks for one symbol. -/
def unsubscribeMany (st : WSState) (symbol : String) (cbs : List Callback)
    (now : ℕ) : WSState × List OutMsg :=
  match cbs with
  | [] => (st, [])
  | cb :: rest =>
      let r := unsubscribe st symbol cb now
      let next := unsubscribeMany r.state symbol rest now
      (next.1, r.sent ++ next.2)

/-- Is this frame a SUBSCRIBE for the given symbol's ticker stream? -/
def isSubFor (symbol : String) : OutMsg → Bool
  | OutMsg.subMsg params _ => params.contains (streamName symbol)
  | _ => false

/-- Is this frame an UNSUBSCRIBE for the given symbol's ticker stream? -/
def isUnsubFor (symbol : String) : OutMsg → Bool
  | OutMsg.unsubMsg params _ => params.contains (streamName symbol)
  | _ => false

/-- Number of SUBSCRIBE frames for a symbol in a transcript. -/
def countSubMsgs (msgs : List OutMsg) (symbol : String) : ℕ :=
  (msgs.filter (isSubFor symbol)).length

/-- Number of UNSUBSCRIBE frames for a symbol in a transcript. -/
def countUnsubMsgs (msgs : List OutMsg) (symbol : String) : ℕ :=
  (msgs.filter (isUnsubFor symbol)).length

/-! ### Association-list lemmas -/

theorem aget_aset_self {β : Type} (m : SMap β) (key : String) (val : β) :
    aget (aset m key val) key = some val := by
  induction m with
  | nil => simp [aset, aget]
  | cons e rest ih =>
      by_cases h : e.1 = key
      · simp [aset, h, aget]
      · simp [aset, h, aget, ih]

theorem aget_aset_ne {β : Type} (m : SMap β) (key key2 : String) (val : β)
    (h : key2 ≠ key) : aget (aset m key val) key2 = aget m key2 := by
  have hne : ¬ key = key2 := fun hk => h hk.symm
  induction m with
  | nil => simp [aset, aget, hne]
  | cons e rest ih =>
      by_cases he : e.1 = key
      · have h2 : ¬ e.1 = key2 := by rw [he]; exact hne
        simp [aset, he, aget, hne, h2]
      · by_cases he2 : e.1 = key2
        · simp [aset, he, aget, he2, h]
        · simp [aset, he, aget, he2, ih]

theorem aget_adel_self {β : Type} (m : SMap β) (key : String) :
    aget (adel m key) key = none := by
  induction m with
  | nil => simp [adel, aget]
  | cons e rest ih =>
      by_cases h : e.1 = key
      · simpa [adel, h] using ih
      · simpa [adel, aget, h] using ih

theorem aget_adel_ne {β : Type} (m : SMap β) (key key2 : String)
    (h : key2 ≠ key) : aget (adel m key) key2 = aget m key2 := by
  have hne : ¬ key = key2 := fun hk => h hk.symm
  induction m with
  | nil => simp [adel, aget]
  | cons e rest ih =>
      by_cases he : e.1 = key
      · have h2 : ¬ e.1 = key2 := by rw [he]; exact hne
        simp [adel, he, aget, h2, hne] at ih ⊢
        rw [ih]
      · by_cases he2 : e.1 = key2
        · simp [adel, aget, he, he2, h]
        · simp [adel, aget, he, he2] at ih ⊢
          rw [ih]

/-! ### Callback-set lemmas -/

theorem cbAdd_of_not_mem (l : List Callback) (cb : Callback)
    (h : cbMem l cb = false) : cbAdd l cb = l ++ [cb] := by
  simp [cbAdd, h]

theorem cbDel_of_not_mem (l : List Callback) (cb : Callback)
    (h : cbMem l cb = false) : cbDel l cb = l := by
  rw [cbDel, List.filter_eq_self]
  intro c hc
  simp only [cbMem, List.any_eq_false] at h
  simpa using h c hc

theorem length_cbDel_of_mem (l : List Callback) (cb : Callback)
    (hd : (l.map Callback.id).Nodup) (hm : cbMem l cb = true) :
    (cbDel l cb).length + 1 = l.length := by
  induction l with
  | nil => simp [cbMem] at hm
  | cons c rest ih =>
      simp only [List.map_cons, List.nodup_cons] at hd
      by_cases hc : c.id = cb.id
      · have hrest : cbMem rest cb = false := by
          by_contra hby
          have hmem : cbMem rest cb = true := by
            cases hcm : cbMem rest cb
            · exact absurd hcm hby
            · rfl
          obtain ⟨c2, hc2, hid⟩ : ∃ c2 ∈ rest, c2.id = cb.id := by
            simpa [cbMem] using hmem
          apply hd.1
          rw [hc, ← hid]
          exact List.mem_map_of_mem Callback.id hc2
        have hall : ∀ a ∈ rest, ¬ a.id = cb.id := by
          simpa [cbMem] using hrest
        simp [cbDel, hc]
        exact hall
      · have hm2 : cbMem rest cb = true := by
          simpa [cbMem, hc] using hm
        simpa [cbDel, hc] using ih hd.2 hm2

theorem nodup_map_cbDel (l : List Callback) (cb : Callback)
    (hd : (l.map Callback.id).Nodup) : ((cbDel l cb).map Callback.id).Nodup :=
  ((List.filter_sublist l).map Callback.id).nodup hd

/-! ### Claim theorems -/

/-- C5: for every reconnect attempt number `n` with `1 ≤ n ≤ 15`, the
scheduled delay is `min(2000 * 1.5^n, 45000)` ms; consecutive delays are
non-decreasing, attempt 1 sleeps 3000 ms, and no delay exceeds 45000 ms. -/
theorem C5_backoff_delay (st : WSState) (n : ℕ)
    (h1 : st.isReconnecting = false) (h2 : st.isOnline = true)
    (h3 : st.reconnectAttempts + 1 = n) (h4 : n ≤ 15) :
    (handleReconnect st).2 = some (min (2000 * (3 / 2 : ℚ) ^ n) 45000) ∧
    reconnectDelayQ n ≤ reconnectDelayQ (n + 1) ∧
    (n = 1 → (handleReconnect st).2 = some 3000) ∧
    min (2000 * (3 / 2 : ℚ) ^ n) 45000 ≤ 45000 := by
  have hguard : ¬ (st.isReconnecting ∨ st.isOnline = false) := by
    simp [h1, h2]
  have hlt : st.reconnectAttempts < maxReconnectAttempts := by
    unfold maxReconnectAttempts
    omega
  have hval : (handleReconnect st).2 = some (reconnectDelayQ n) := by
    simp [handleReconnect, hguard, hlt, h3]
  refine ⟨hval, ?_, ?_, min_le_right _ _⟩
  · unfold reconnectDelayQ
    refine min_le_min ?_ le_rfl
    have hbase : (1 : ℚ) ≤ 3 / 2 := by norm_num
    have hp := pow_le_pow_right₀ hbase (Nat.le_succ n)
    exact mul_le_mul_of_nonneg_left hp (by norm_num)
  · intro hn
    rw [hval, hn]
    unfold reconnectDelayQ
    norm_num

/-- C5 witness: at the initial state the first failure schedules the
attempt-1 delay of 3000 ms. -/
theorem C5_backoff_delay_witness :
    (handleReconnect initState).2 = some (min (2000 * (3 / 2 : ℚ) ^ 1) 45000) ∧
    reconnectDelayQ 1 ≤ reconnectDelayQ (1 + 1) ∧
    (1 = 1 → (handleReconnect initState).2 = some 3000) ∧
    min (2000 * (3 / 2 : ℚ) ^ 1) 45000 ≤ 45000 :=
  C5_backoff_delay initState 1 rfl rfl rfl (by norm_num)

/-- C6: a ticker frame whose parsed price is ≤ 0 neither overwrites the
cached snapshot of its symbol nor invokes any subscriber callback, so
`getLastData` still returns the previous valid snapshot. -/
theorem C6_negative_price_rejected (st : WSState) (symbol : String)
    (t : Ticker) (now : ℕ) (cached : CachedData)
    (hc : aget st.lastData symbol = some cached)
    (_hpos : 0 < cached.data.price)
    (hs : t.s = some symbol) (hp : (t.c).getD 0 ≤ 0) :
    processTicker st t now = (st, []) ∧
    getLastData (processTicker st t now).1 symbol now = cached.data := by
  have h1 : processTicker st t now = (st, []) := by
    unfold processTicker
    rw [hs]
    by_cases he : symbol = ""
    · simp [he]
    · simp only [he, if_false]
      rw [if_neg]
      simp only [not_lt]
      exact hp
  exact ⟨h1, by rw [h1]; simp [getLastData, hc]⟩

/-- C6 witness: a frame reporting price -1 for BTCUSDT leaves a cached
price-100 snapshot in place. -/
theorem C6_negative_price_rejected_witness :
    processTicker
      { initState with
          lastData := aset initState.lastData "BTCUSDT"
            ⟨{ symbol := "BTCUSDT", price := 100, priceChange := 0,
               priceChangePercent := 0, volume := 0, high24h := 0,
               low24h := 0, lastUpdate := 0 }, 0⟩ }
      ⟨some "BTCUSDT", some (-1), none, none, none, none, none⟩ 9 =
      ({ initState with
          lastData := aset initState.lastData "BTCUSDT"
            ⟨{ symbol := "BTCUSDT", price := 100, priceChange := 0,
               priceChangePercent := 0, volume := 0, high24h := 0,
               low24h := 0, lastUpdate := 0 }, 0⟩ }, []) ∧
    getLastData
      (processTicker
        { initState with
            lastData := aset initState.lastData "BTCUSDT"
              ⟨{ symbol := "BTCUSDT", price := 100, priceChange := 0,
                 priceChangePercent := 0, volume := 0, high24h := 0,
                 low24h := 0, lastUpdate := 0 }, 0⟩ }
        ⟨some "BTCUSDT", some (-1), none, none, none, none, none⟩ 9).1
      "BTCUSDT" 9 =
      { symbol := "BTCUSDT", price := 100, priceChange := 0,
        priceChangePercent := 0, volume := 0, high24h := 0,
        low24h := 0, lastUpdate := 0 } :=
  C6_negative_price_rejected _ "BTCUSDT"
    ⟨some "BTCUSDT", some (-1), none, none, none, none, none⟩ 9
    ⟨{ symbol := "BTCUSDT", price := 100, priceChange := 0,
       priceChangePercent := 0, volume := 0, high24h := 0,
       low24h := 0, lastUpdate := 0 }, 0⟩
    (by rw [aget_aset_self]) (by norm_num) rfl (by norm_num)

/-! ### Registry evaluation lemmas -/

theorem subscribe_wsOpen (st : WSState) (symbol : String) (cb : Callback)
    (now : ℕ) : (subscribe st symbol cb now).state.wsOpen = st.wsOpen := by
  unfold subscribe
  cases aget st.lastData symbol <;> rfl

theorem unsubscribe_wsOpen (st : WSState) (symbol : String) (cb : Callback)
    (now : ℕ) : (unsubscribe st symbol cb now).state.wsOpen = st.wsOpen := by
  unfold unsubscribe
  cases aget st.callbacks symbol <;> rfl

theorem subscribe_count_pos (st : WSState) (symbol : String) (cb : Callback)
    (now : ℕ) (c : ℕ) (hc : aget st.subscriptionCounts symbol = some c)
    (hpos : 0 < c) :
    (subscribe st symbol cb now).sent = [] ∧
    aget (subscribe st symbol cb now).state.subscriptionCounts symbol =
      some (c + 1) := by
  have hne : ¬ c = 0 := by omega
  unfold subscribe
  cases aget st.lastData symbol <;> simp [hc, hne, aget_aset_self]

theorem subscribe_first_open (st : WSState) (symbol : String) (cb : Callback)
    (now : ℕ) (hc : aget st.subscriptionCounts symbol = none)
    (hopen : st.wsOpen = true) :
    (subscribe st symbol cb now).sent = [OutMsg.subMsg [streamName symbol] now] ∧
    aget (subscribe st symbol cb now).state.subscriptionCounts symbol =
      some 1 := by
  unfold subscribe
  cases aget st.lastData symbol <;> simp [hc, hopen, aget_aset_self]

theorem subscribeMany_count_pos (symbol : String) (cbs : List Callback) :
    ∀ (st : WSState) (now : ℕ) (c : ℕ),
      aget st.subscriptionCounts symbol = some c → 0 < c →
      (subscribeMany st symbol cbs now).2 = [] ∧
      aget (subscribeMany st symbol cbs now).1.subscriptionCounts symbol =
        some (c + cbs.length) ∧
      (subscribeMany st symbol cbs now).1.wsOpen = st.wsOpen := by
  induction cbs with
  | nil =>
      intro st now c hc _
      exact ⟨rfl, by simpa using hc, rfl⟩
  | cons cb rest ih =>
      intro st now c hc hpos
      obtain ⟨hsent, hcount⟩ := subscribe_count_pos st symbol cb now c hc hpos
      obtain ⟨hs2, hc2, hw2⟩ :=
        ih (subscribe st symbol cb now).state now (c + 1) hcount (by omega)
      refine ⟨?_, ?_, ?_⟩
      · simp [subscribeMany, hsent, hs2]
      · rw [show c + (cb :: rest).length = c + 1 + rest.length by
          simp only [List.length_cons]; omega]
        simpa [subscribeMany] using hc2
      · rw [show (subscribeMany st symbol (cb :: rest) now).1 =
              (subscribeMany (subscribe st symbol cb now).state symbol rest
                now).1 from rfl]
        rw [hw2, subscribe_wsOpen]

theorem unsubscribe_count_ge_two (st : WSState) (symbol : String)
    (cb : Callback) (now : ℕ) (c : ℕ)
    (hc : aget st.subscriptionCounts symbol = some c) (h2 : 2 ≤ c) :
    (unsubscribe st symbol cb now).sent = [] ∧
    aget (unsubscribe st symbol cb now).state.subscriptionCounts symbol =
      some (c - 1) := by
  have hne : ¬ c = 1 := by omega
  have hpos : 0 < c := by omega
  unfold unsubscribe
  cases aget st.callbacks symbol <;>
    simp [hc, hne, hpos, aget_aset_self]

theorem unsubscribe_count_one (st : WSState) (symbol : String)
    (cb : Callback) (now : ℕ)
    (hc : aget st.subscriptionCounts symbol = some 1)
    (hopen : st.wsOpen = true) :
    (unsubscribe st symbol cb now).sent =
      [OutMsg.unsubMsg [streamName symbol] now] ∧
    aget (unsubscribe st symbol cb now).state.subscriptionCounts symbol =
      none := by
  unfold unsubscribe
  cases aget st.callbacks symbol <;>
    simp [hc, hopen, aget_adel_self]

theorem unsubscribeMany_last_sends_one (symbol : String) (cbs : List Callback) :
    ∀ (st : WSState) (now : ℕ),
      aget st.subscriptionCounts symbol = some cbs.length →
      0 < cbs.length → st.wsOpen = true →
      countUnsubMsgs (unsubscribeMany st symbol cbs now).2 symbol = 1 := by
  induction cbs with
  | nil => intro st now _ hpos _; simp at hpos
  | cons cb rest ih =>
      intro st now hc hpos hopen
      by_cases hrn : rest = []
      · subst hrn
        obtain ⟨hsent, _⟩ :=
          unsubscribe_count_one st symbol cb now (by simpa using hc) hopen
        simp [unsubscribeMany, hsent, countUnsubMsgs, isUnsubFor, streamName]
      · have hrpos : 0 < rest.length := List.length_pos.mpr hrn
        obtain ⟨hsent, hcount⟩ := unsubscribe_count_ge_two st symbol cb now
          (cb :: rest).length hc (by simp only [List.length_cons]; omega)
        have hcount2 : aget (unsubscribe st symbol cb
            now).state.subscriptionCounts symbol = some rest.length := by
          rw [hcount]
          simp
        have hopen2 : (unsubscribe st symbol cb now).state.wsOpen = true := by
          rw [unsubscribe_wsOpen]; exact hopen
        have hih := ih (unsubscribe st symbol cb now).state now hcount2 hrpos
          hopen2
        simpa [unsubscribeMany, hsent, countUnsubMsgs] using hih

theorem subscribe_counts_self (st : WSState) (symbol : String) (cb : Callback)
    (now : ℕ) :
    aget (subscribe st symbol cb now).state.subscriptionCounts symbol =
      some ((aget st.subscriptionCounts symbol).getD 0 + 1) := by
  unfold subscribe
  cases aget st.lastData symbol <;> simp [aget_aset_self]

theorem subscribe_counts_ne (st : WSState) (symbol : String) (cb : Callback)
    (now : ℕ) (sym : String) (hsy : sym ≠ symbol) :
    aget (subscribe st symbol cb now).state.subscriptionCounts sym =
      aget st.subscriptionCounts sym := by
  unfold subscribe
  cases aget st.lastData symbol <;> simp [aget_aset_ne _ _ _ _ hsy]

theorem subscribe_cbs_self (st : WSState) (symbol : String) (cb : Callback)
    (now : ℕ) :
    aget (subscribe st symbol cb now).state.callbacks symbol =
      some (cbAdd ((aget st.callbacks symbol).getD []) cb) := by
  unfold subscribe
  cases aget st.lastData symbol <;> simp [aget_aset_self]

theorem subscribe_cbs_ne (st : WSState) (symbol : String) (cb : Callback)
    (now : ℕ) (sym : String) (hsy : sym ≠ symbol) :
    aget (subscribe st symbol cb now).state.callbacks sym =
      aget st.callbacks sym := by
  unfold subscribe
  cases aget st.lastData symbol <;> simp [aget_aset_ne _ _ _ _ hsy]

theorem unsubscribe_counts_self (st : WSState) (symbol : String)
    (cb : Callback) (now : ℕ) :
    aget (unsubscribe st symbol cb now).state.subscriptionCounts symbol =
      (if 0 < (aget st.subscriptionCounts symbol).getD 0 then
        (if (aget st.subscriptionCounts symbol).getD 0 = 1 then none
         else some ((aget st.subscriptionCounts symbol).getD 0 - 1))
       else aget st.subscriptionCounts symbol) := by
  unfold unsubscribe
  cases aget st.callbacks symbol <;>
    by_cases h0 : 0 < (aget st.subscriptionCounts symbol).getD 0 <;>
      by_cases h1 : (aget st.subscriptionCounts symbol).getD 0 = 1 <;>
        simp [h0, h1, aget_aset_self, aget_adel_self]

theorem unsubscribe_counts_ne (st : WSState) (symbol : String) (cb : Callback)
    (now : ℕ) (sym : String) (hsy : sym ≠ symbol) :
    aget (unsubscribe st symbol cb now).state.subscriptionCounts sym =
      aget st.subscriptionCounts sym := by
  unfold unsubscribe
  cases aget st.callbacks symbol <;>
    by_cases h0 : 0 < (aget st.subscriptionCounts symbol).getD 0 <;>
      by_cases h1 : (aget st.subscriptionCounts symbol).getD 0 = 1 <;>
        simp [h0, h1, aget_aset_ne _ _ _ _ hsy, aget_adel_ne _ _ _ hsy]

theorem unsubscribe_cbs_self_some (st : WSState) (symbol : String)
    (cb : Callback) (now : ℕ) (cbs : List Callback)
    (hcl : aget st.callbacks symbol = some cbs) :
    aget (unsubscribe st symbol cb now).state.callbacks symbol =
      (if (cbDel cbs cb).length = 0 then none else some (cbDel cbs cb)) := by
  unfold unsubscribe
  by_cases hz : (cbDel cbs cb).length = 0 <;>
    simp [hcl, hz, aget_adel_self, aget_aset_self]

theorem unsubscribe_cbs_ne (st : WSState) (symbol : String) (cb : Callback)
    (now : ℕ) (sym : String) (hsy : sym ≠ symbol) :
    aget (unsubscribe st symbol cb now).state.callbacks sym =
      aget st.callbacks sym := by
  unfold unsubscribe
  cases hcl : aget st.callbacks symbol with
  | none => simp [hcl]
  | some cbs =>
      by_cases hz : (cbDel cbs cb).length = 0 <;>
        simp [hcl, hz, aget_adel_ne _ _ _ hsy, aget_aset_ne _ _ _ _ hsy]

/-- The registry invariant the spec asserts: per symbol, the reference
count equals the size of the callback set, and (implicitly maintained by
`Set`) the callback set holds no duplicate identities. -/
def registryInv (st : WSState) : Prop :=
  ∀ symbol : String,
    (aget st.subscriptionCounts symbol).getD 0 =
      ((aget st.callbacks symbol).getD []).length ∧
    (((aget st.callbacks symbol).getD []).map Callback.id).Nodup

theorem id_not_mem_of_cbMem_false (l : List Callback) (cb : Callback)
    (h : cbMem l cb = false) : cb.id ∉ l.map Callback.id := by
  intro hmem
  obtain ⟨c, hc, hcid⟩ := List.mem_map.mp hmem
  have htrue : cbMem l cb = true := by
    simp only [cbMem, List.any_eq_true, decide_eq_true_eq]
    exact ⟨c, hc, hcid⟩
  rw [h] at htrue
  exact Bool.false_ne_true htrue

theorem registryInv_subscribe (st : WSState) (symbol : String) (cb : Callback)
    (now : ℕ) (hInv : registryInv st)
    (hfresh : cbMem ((aget st.callbacks symbol).getD []) cb = false) :
    registryInv (subscribe st symbol cb now).state := by
  intro sym
  by_cases hsy : sym = symbol
  · subst hsy
    rw [subscribe_counts_self, subscribe_cbs_self,
        cbAdd_of_not_mem _ _ hfresh]
    obtain ⟨heq, hnd⟩ := hInv sym
    constructor
    · simp [heq]
    · simp only [Option.getD_some]
      rw [List.map_append, List.nodup_append]
      refine ⟨hnd, List.nodup_singleton _, ?_⟩
      intro a ha hb
      simp only [List.map_cons, List.map_nil, List.mem_singleton] at hb
      subst hb
      exact id_not_mem_of_cbMem_false _ _ hfresh ha
  · rw [subscribe_counts_ne _ _ _ _ _ hsy, subscribe_cbs_ne _ _ _ _ _ hsy]
    exact hInv sym

theorem registryInv_unsubscribe (st : WSState) (symbol : String)
    (cb : Callback) (now : ℕ) (hInv : registryInv st)
    (hmem : cbMem ((aget st.callbacks symbol).getD []) cb = true) :
    registryInv (unsubscribe st symbol cb now).state := by
  cases hcl : aget st.callbacks symbol with
  | none => rw [hcl] at hmem; simp [cbMem] at hmem
  | some cbs =>
      rw [hcl] at hmem
      simp only [Option.getD_some] at hmem
      obtain ⟨hcnt, hnd⟩ := hInv symbol
      rw [hcl] at hcnt hnd
      simp only [Option.getD_some] at hcnt hnd
      have hdel : (cbDel cbs cb).length + 1 = cbs.length :=
        length_cbDel_of_mem cbs cb hnd hmem
      have hpos : 0 < cbs.length := by omega
      intro sym
      by_cases hsy : sym = symbol
      · subst hsy
        rw [unsubscribe_counts_self, unsubscribe_cbs_self_some _ _ _ _ _ hcl,
            hcnt]
        by_cases h1 : cbs.length = 1
        · have hz : (cbDel cbs cb).length = 0 := by omega
          simp [h1, hz, hpos]
        · have hz : ¬ (cbDel cbs cb).length = 0 := by omega
          simp only [hpos, if_true, h1, if_false, hz]
          exact ⟨by simp; omega, by simpa using nodup_map_cbDel cbs cb hnd⟩
      · rw [unsubscribe_counts_ne _ _ _ _ _ hsy, unsubscribe_cbs_ne _ _ _ _ _ hsy]
        exact hInv sym

/-- A registry step that respects the intended discipline: `subscribe`
with a callback not currently registered for the symbol, or
`unsubscribe` with one that is. -/
inductive GoodStep : WSState → WSState → Prop where
  | sub (st : WSState) (symbol : String) (cb : Callback) (now : ℕ)
      (h : cbMem ((aget st.callbacks symbol).getD []) cb = false) :
      GoodStep st (subscribe st symbol cb now).state
  | unsub (st : WSState) (symbol : String) (cb : Callback) (now : ℕ)
      (h : cbMem ((aget st.callbacks symbol).getD []) cb = true) :
      GoodStep st (unsubscribe st symbol cb now).state

/-- Reflexive-transitive closure of `GoodStep`. -/
inductive ReachableG : WSState → WSState → Prop where
  | refl (st : WSState) : ReachableG st st
  | step (s t u : WSState) : ReachableG s t → GoodStep t u → ReachableG s u

/-- C4 (amended): the count-equals-set-size invariant holds in every
state reached by subscribes of callbacks not currently registered for
the symbol and unsubscribes of currently-registered ones; subscribing
the same callback twice for one symbol breaks it (see the
counterexample: count 2, set size 1), because the count always
increments while the `Set` deduplicates. -/
theorem C4_refcount_invariant_amended (s t : WSState) (hInv : registryInv s)
    (hR : ReachableG s t) : registryInv t := by
  induction hR with
  | refl => exact hInv
  | step t2 u2 _ hstep ih =>
      cases hstep with
      | sub symbol cb now h => exact registryInv_subscribe t2 symbol cb now ih h
      | unsub symbol cb now h =>
          exact registryInv_unsubscribe t2 symbol cb now ih h

/-- C4 witness: one fresh subscribe from the initial state keeps the
invariant. -/
theorem C4_refcount_invariant_amended_witness :
    registryInv (subscribe initState "BTCUSDT" ⟨1, false⟩ 0).state :=
  C4_refcount_invariant_amended initState
    (subscribe initState "BTCUSDT" ⟨1, false⟩ 0).state
    (fun _ => ⟨rfl, List.nodup_nil⟩)
    (ReachableG.step _ _ _ (ReachableG.refl _)
      (GoodStep.sub initState "BTCUSDT" ⟨1, false⟩ 0 (by decide)))

/-- C4 counterexample: subscribing the same callback twice for BTCUSDT
leaves reference count 2 but a callback set of size 1, refuting the
claimed equality for arbitrary subscribe sequences. -/
theorem C4_counterexample :
    aget (subscribe (subscribe initState "BTCUSDT" ⟨3, false⟩ 0).state
        "BTCUSDT" ⟨3, false⟩ 0).state.subscriptionCounts "BTCUSDT" =
      some 2 ∧
    ((aget (subscribe (subscribe initState "BTCUSDT" ⟨3, false⟩ 0).state
        "BTCUSDT" ⟨3, false⟩ 0).state.callbacks "BTCUSDT").getD
        []).length = 1 := by
  decide

/-- C1: with the socket open, subscribing a symbol N ≥ 1 times with N
distinct callbacks sends exactly one SUBSCRIBE frame for it, and then
unsubscribing each of those callbacks once sends exactly one UNSUBSCRIBE
frame for it. -/
theorem C1_coalescing (st : WSState) (symbol : String) (cbs : List Callback)
    (now : ℕ) (hlen : 1 ≤ cbs.length)
    (hdist : (cbs.map Callback.id).Nodup)
    (hnew : aget st.subscriptionCounts symbol = none)
    (hopen : st.wsOpen = true) :
    countSubMsgs (subscribeMany st symbol cbs now).2 symbol = 1 ∧
    countUnsubMsgs
      (unsubscribeMany (subscribeMany st symbol cbs now).1 symbol cbs
        now).2 symbol = 1 := by
  cases cbs with
  | nil => simp at hlen
  | cons cb rest =>
      obtain ⟨hsent1, hcount1⟩ := subscribe_first_open st symbol cb now hnew hopen
      obtain ⟨hrestSent, hrestCount, hrestOpen⟩ :=
        subscribeMany_count_pos symbol rest (subscribe st symbol cb now).state
          now 1 hcount1 one_pos
      constructor
      · simp [subscribeMany, hsent1, hrestSent, countSubMsgs, isSubFor,
              streamName]
      · apply unsubscribeMany_last_sends_one
        · rw [show (subscribeMany st symbol (cb :: rest) now).1 =
                (subscribeMany (subscribe st symbol cb now).state symbol rest
                  now).1 from rfl]
          rw [hrestCount]
          simp [Nat.add_comm]
        · simp
        · rw [show (subscribeMany st symbol (cb :: rest) now).1 =
                (subscribeMany (subscribe st symbol cb now).state symbol rest
                  now).1 from rfl]
          rw [hrestOpen, subscribe_wsOpen]
          exact hopen

/-- C1 witness: two distinct callbacks on an open socket produce one
SUBSCRIBE and, after both detach, one UNSUBSCRIBE. -/
theorem C1_coalescing_witness :
    countSubMsgs (subscribeMany { initState with wsOpen := true } "XRPUSDT"
      [⟨1, false⟩, ⟨2, false⟩] 0).2 "XRPUSDT" = 1 ∧
    countUnsubMsgs
      (unsubscribeMany (subscribeMany { initState with wsOpen := true }
          "XRPUSDT" [⟨1, false⟩, ⟨2, false⟩] 0).1 "XRPUSDT"
        [⟨1, false⟩, ⟨2, false⟩] 0).2 "XRPUSDT" = 1 :=
  C1_coalescing { initState with wsOpen := true } "XRPUSDT"
    [⟨1, false⟩, ⟨2, false⟩] 0 (by decide) (by decide) (by decide) rfl

/-- C2 (amended): `unsubscribe`, `getLastData` and `close` never throw,
and a callback that throws during inbound-frame fan-out is isolated —
every registered callback still receives the snapshot; but the
synchronous cache-hit invocation inside `subscribe` is not guarded, so
`subscribe` propagates the callback's exception exactly when the symbol
has a cached snapshot and the callback throws. -/
theorem C2_callback_isolation_amended (st : WSState) (symbol : String)
    (cb cb2 : Callback) (t : Ticker) (now : ℕ)
    (hs : t.s = some symbol) (hne : symbol ≠ "") (hp : 0 < (t.c).getD 0)
    (hmem : cb2 ∈ (aget st.callbacks symbol).getD []) :
    (∃ pd : PriceData, (cb2, pd) ∈ (processTicker st t now).2) ∧
    (subscribe st symbol cb now).threw =
      ((aget st.lastData symbol).isSome && cb.throws) := by
  constructor
  · unfold processTicker
    rw [hs]
    simp only [hne, if_false]
    rw [if_pos hp]
    exact ⟨_, List.mem_map_of_mem _ hmem⟩
  · unfold subscribe
    cases hLast : aget st.lastData symbol <;> simp [hLast]

/-- C2 witness: with one registered callback, a ticker frame reaches it,
and subscribing a throwing callback on a cache hit raises. -/
theorem C2_callback_isolation_amended_witness :
    (∃ pd : PriceData, ((⟨1, false⟩ : Callback), pd) ∈
      (processTicker (subscribe initState "BTCUSDT" ⟨1, false⟩ 0).state
        ⟨some "BTCUSDT", some 5, none, none, none, none, none⟩ 3).2) ∧
    (subscribe (subscribe initState "BTCUSDT" ⟨1, false⟩ 0).state
        "BTCUSDT" ⟨2, true⟩ 0).threw =
      ((aget (subscribe initState "BTCUSDT" ⟨1, false⟩ 0).state.lastData
          "BTCUSDT").isSome && true) :=
  C2_callback_isolation_amended
    (subscribe initState "BTCUSDT" ⟨1, false⟩ 0).state "BTCUSDT"
    ⟨2, true⟩ ⟨1, false⟩
    ⟨some "BTCUSDT", some 5, none, none, none, none, none⟩ 3
    rfl (by decide) (by norm_num) (by decide)

/-- C2 counterexample: at the freshly initialized state — BTCUSDT has a
bootstrap cache entry — subscribing a callback that throws makes
`subscribe` itself throw to its caller, refuting that no public
operation ever throws. -/
theorem C2_counterexample :
    (subscribe initState "BTCUSDT" ⟨1, true⟩ 0).threw = true := by
  decide

/-- C3 (amended): a parsed inbound frame is classified by two top-level
checks only: a truthy `pong` field makes it a heartbeat ack, else a
top-level `e = "24hrTicker"` makes it a single bare ticker payload that
is normalized and cached; a JSON array of ticker payloads (and an
envelope-wrapped ticker, which lacks a top-level `e`) matches neither
check and is dropped without touching the cache or any callback. -/
theorem C3_frame_classification_amended (st : WSState) (pong : Option ℕ)
    (e : Option String) (tick : Ticker) (items : List Ticker) (now : ℕ) :
    ((onMessage st (WsFrame.jarr items) now).1 =
        { st with lastMessageTime := now } ∧
      (onMessage st (WsFrame.jarr items) now).2 = []) ∧
    (truthyNat pong = true →
      (onMessage st (WsFrame.jobj pong e tick) now).1 =
        { st with lastMessageTime := now, lastPongTime := now } ∧
      (onMessage st (WsFrame.jobj pong e tick) now).2 = []) ∧
    (truthyNat pong = false →
      onMessage st (WsFrame.jobj pong (some "24hrTicker") tick) now =
        processTicker { st with lastMessageTime := now } tick now) ∧
    (truthyNat pong = false → ¬ e = some "24hrTicker" →
      (onMessage st (WsFrame.jobj pong e tick) now).1 =
        { st with lastMessageTime := now } ∧
      (onMessage st (WsFrame.jobj pong e tick) now).2 = []) := by
  refine ⟨⟨rfl, rfl⟩, ?_, ?_, ?_⟩
  · intro hpong
    simp [onMessage, hpong]
  · intro hpong
    simp [onMessage, hpong]
  · intro hpong he
    simp [onMessage, hpong, he]

/-- C3 witness: a `{pong: 3}` frame refreshes the liveness clocks and
nothing else. -/
theorem C3_frame_classification_amended_witness :
    (onMessage initState (WsFrame.jobj (some 3) none
        ⟨some "BTCUSDT", some 5, none, none, none, none, none⟩) 4).1 =
      { initState with lastMessageTime := 4, lastPongTime := 4 } ∧
    (onMessage initState (WsFrame.jobj (some 3) none
        ⟨some "BTCUSDT", some 5, none, none, none, none, none⟩) 4).2 = [] :=
  (C3_frame_classification_amended initState (some 3) none
      ⟨some "BTCUSDT", some 5, none, none, none, none, none⟩ [] 4).2.1
    (by decide)

/-- C3 counterexample: a bulk snapshot — a JSON array holding one valid
ticker for BTCUSDT with positive price — is dropped whole by the
`onmessage` handler: the cache keeps its zero-valued placeholder and no
callback runs, even though feeding that very element to `processTicker`
would have updated the cache. -/
theorem C3_counterexample :
    (onMessage initState (WsFrame.jarr
        [⟨some "BTCUSDT", some 5, some 1, some 1, some 2, some 6, some 4⟩])
        7).1.lastData = initState.lastData ∧
    (onMessage initState (WsFrame.jarr
        [⟨some "BTCUSDT", some 5, some 1, some 1, some 2, some 6, some 4⟩])
        7).2 = [] ∧
    (processTicker { initState with lastMessageTime := 7 }
        ⟨some "BTCUSDT", some 5, some 1, some 1, some 2, some 6, some 4⟩
        7).1.lastData ≠ initState.lastData := by
  decide

/-- C10: `unsubscribe` with a never-registered callback, while the
symbol has exactly one real subscriber, still drops the reference count
to zero: the count entry is deleted and an UNSUBSCRIBE frame goes out on
the open socket, yet the real callback stays registered and still
receives later ticker frames for the symbol. -/
theorem C10_unregistered_unsubscribe (st : WSState) (symbol : String)
    (cb0 cb : Callback) (now now2 : ℕ) (t : Ticker)
    (h1 : aget st.subscriptionCounts symbol = some 1)
    (h2 : aget st.callbacks symbol = some [cb0])
    (h3 : cb.id ≠ cb0.id)
    (h4 : st.wsOpen = true)
    (hs : t.s = some symbol) (hne : symbol ≠ "") (hp : 0 < (t.c).getD 0) :
    aget (unsubscribe st symbol cb now).state.subscriptionCounts symbol = none ∧
    (unsubscribe st symbol cb now).sent =
      [OutMsg.unsubMsg [streamName symbol] now] ∧
    aget (unsubscribe st symbol cb now).state.callbacks symbol = some [cb0] ∧
    (processTicker (unsubscribe st symbol cb now).state t now2).2.map
      Prod.fst = [cb0] := by
  have h3s : ¬ cb0.id = cb.id := fun hh => h3 hh.symm
  have hcb : cbDel [cb0] cb = [cb0] := by
    simp [cbDel, h3s]
  have hcbs : aget (unsubscribe st symbol cb now).state.callbacks symbol =
      some [cb0] := by
    simp [unsubscribe, h1, h2, hcb, aget_aset_self]
  refine ⟨?_, ?_, hcbs, ?_⟩
  · simp [unsubscribe, h1, aget_adel_self]
  · simp [unsubscribe, h1, h4]
  · unfold processTicker
    rw [hs]
    simp only [hne, if_false]
    rw [if_pos hp]
    simp [hcbs]

/-- C10 witness: one real subscriber on an open socket, then an
unsubscribe with a foreign callback. -/
theorem C10_unregistered_unsubscribe_witness :
    aget (unsubscribe (subscribe { initState with wsOpen := true }
        "BTCUSDT" ⟨1, false⟩ 0).state "BTCUSDT" ⟨2, false⟩
        5).state.subscriptionCounts "BTCUSDT" = none ∧
    (unsubscribe (subscribe { initState with wsOpen := true }
        "BTCUSDT" ⟨1, false⟩ 0).state "BTCUSDT" ⟨2, false⟩ 5).sent =
      [OutMsg.unsubMsg [streamName "BTCUSDT"] 5] ∧
    aget (unsubscribe (subscribe { initState with wsOpen := true }
        "BTCUSDT" ⟨1, false⟩ 0).state "BTCUSDT" ⟨2, false⟩
        5).state.callbacks "BTCUSDT" = some [⟨1, false⟩] ∧
    (processTicker (unsubscribe (subscribe { initState with wsOpen := true }
        "BTCUSDT" ⟨1, false⟩ 0).state "BTCUSDT" ⟨2, false⟩ 5).state
      ⟨some "BTCUSDT", some 5, none, none, none, none, none⟩ 6).2.map
      Prod.fst = [⟨1, false⟩] :=
  C10_unregistered_unsubscribe
    (subscribe { initState with wsOpen := true } "BTCUSDT" ⟨1, false⟩ 0).state
    "BTCUSDT" ⟨1, false⟩ ⟨2, false⟩ 5 6
    ⟨some "BTCUSDT", some 5, none, none, none, none, none⟩
    (by decide) (by decide) (by decide) (by decide) rfl (by decide)
    (by norm_num)

/-- C7: when a cached snapshot exists for the symbol, `subscribe`
synchronously invokes the new callback exactly once, with exactly that
snapshot, before returning. -/
theorem C7_cache_hit_on_subscribe (st : WSState) (symbol : String)
    (cb : Callback) (now : ℕ) (cached : CachedData)
    (h : aget st.lastData symbol = some cached) :
    (subscribe st symbol cb now).invoked = [(cb, cached.data)] := by
  simp [subscribe, h]

/-- C7 witness: subscribing to BTCUSDT at the freshly initialized state
hands the new callback the bootstrap placeholder snapshot. -/
theorem C7_cache_hit_on_subscribe_witness :
    (subscribe initState "BTCUSDT" ⟨7, false⟩ 0).invoked =
      [(⟨7, false⟩,
        { symbol := "BTCUSDT", price := 0, priceChange := 0,
          priceChangePercent := 0, volume := 0, high24h := 0,
          low24h := 0, lastUpdate := 0 })] :=
  C7_cache_hit_on_subscribe initState "BTCUSDT" ⟨7, false⟩ 0
    ⟨{ symbol := "BTCUSDT", price := 0, priceChange := 0,
       priceChangePercent := 0, volume := 0, high24h := 0,
       low24h := 0, lastUpdate := 0 }, 0⟩ (by rfl)

/-- The state after the first connection attempt from the initial state
has completed its open handshake. -/
def stOpen : WSState := onOpen (connect initState) 1

/-- `stOpen` after its socket fired an `error` event: `handleReconnect`
has scheduled one reconnect-delay timer. -/
def stErr : WSState := onError stOpen

/-- C8 (amended): `close()` clears the heartbeat and staleness-check
intervals and the socket, and calling it a second time is a no-op (so it
cannot throw); but a pending reconnect-delay timer survives `close()`
unconditionally — its `setTimeout` handle was never stored — and when it
fires while the browser is online it starts a fresh connection attempt
after the intentional shutdown. -/
theorem C8_close_amended (st : WSState) :
    (close st).heartbeatActive = false ∧
    (close st).connectionCheckActive = false ∧
    (close st).wsOpen = false ∧
    close (close st) = close st ∧
    (close st).pendingReconnectTimers = st.pendingReconnectTimers ∧
    (st.isOnline = true → 0 < st.pendingReconnectTimers →
      (fireReconnectTimer (close st)).connectAttemptsMade =
        st.connectAttemptsMade + 1) := by
  refine ⟨rfl, rfl, rfl, rfl, rfl, ?_⟩
  intro hon _
  simp [fireReconnectTimer, connect, close, cleanup, hon]

/-- C8 witness: at the concrete post-error state the surviving timer
does start a stray connection attempt after `close()`. -/
theorem C8_close_amended_witness :
    (fireReconnectTimer (close stErr)).connectAttemptsMade =
      stErr.connectAttemptsMade + 1 :=
  (C8_close_amended stErr).2.2.2.2.2 (by decide) (by decide)

/-- C8 counterexample: after an error event has scheduled a reconnect
timer, `close()` leaves that timer pending, and its firing performs a
further connect attempt — refuting that no component timer fires and no
connect attempt occurs after `close()` returns. -/
theorem C8_counterexample :
    (close stErr).pendingReconnectTimers = 1 ∧
    (fireReconnectTimer (close stErr)).connectAttemptsMade =
      (close stErr).connectAttemptsMade + 1 ∧
    (fireReconnectTimer (close stErr)).isReconnecting = true := by
  decide

/-- C9 (amended): the `isReconnecting` guard does make `handleReconnect`
a no-op whenever the flag is up, but `handleReconnect` itself never
raises the flag (only `connect` does), so on an established connection —
flag down — an error event immediately followed by a close event
schedules two reconnect timers. -/
theorem C9_reconnect_guard_amended (st : WSState) :
    (st.isReconnecting = true → handleReconnect st = (st, none)) ∧
    (st.isReconnecting = false → st.isOnline = true →
      st.reconnectAttempts + 1 < maxReconnectAttempts →
      (onCloseEvt (onError st)).pendingReconnectTimers =
        st.pendingReconnectTimers + 2) := by
  constructor
  · intro h
    simp [handleReconnect, h]
  · intro h1 h2 h3
    have hlt1 : st.reconnectAttempts < maxReconnectAttempts := by omega
    have e1 : onError st =
        { st with reconnectAttempts := st.reconnectAttempts + 1,
                  pendingReconnectTimers := st.pendingReconnectTimers + 1 } := by
      simp [onError, handleReconnect, h1, h2, hlt1]
    rw [onCloseEvt, e1]
    simp [handleReconnect, h1, h2, h3]

/-- C9 witness: at the concrete open-connection state, error followed by
close leaves two timers pending. -/
theorem C9_reconnect_guard_amended_witness :
    (onCloseEvt (onError stOpen)).pendingReconnectTimers =
      stOpen.pendingReconnectTimers + 2 :=
  (C9_reconnect_guard_amended stOpen).2 (by decide) (by decide) (by decide)

/-- C9 counterexample: from the open-connection state (zero pending
timers), an error event immediately followed by a close event on the
same connection leaves two reconnect timers pending, and when both fire
two connection attempts are launched — refuting the at-most-one-timer
invariant. -/
theorem C9_counterexample :
    stOpen.pendingReconnectTimers = 0 ∧
    (onCloseEvt (onError stOpen)).pendingReconnectTimers = 2 ∧
    (fireReconnectTimer (fireReconnectTimer (onCloseEvt (onError
        stOpen)))).connectAttemptsMade = stOpen.connectAttemptsMade + 2 := by
  decide

end BinanceWS
